import Mathlib

/-!
Verification of the Account Ledger & Identity Sequencing subsystem of the
Banking-Management-System repository (src/app.py, src/utils.py).

The Python code is shallowly embedded: each MongoDB collection becomes a list
field of a `DB` record, each handler/helper becomes a pure function on `DB`.
Timestamps are integers (the code stores UTC `datetime` values or their
isoformat strings; lexicographic order on such strings coincides with
chronological order, so an integer timeline with `≤` is a faithful
abstraction).  Fallible storage writes that the code wraps in try/except are
given an explicit boolean success parameter.
-/

namespace Banking

/-- A document of `users_collection`.  `LastLoggedIn` distinguishes an absent
field (`none`) from a field stored as Python `None` (`some none`) — `add_user`
(app.py:107-115) always stores the field, initially `None`. -/
structure User where
  UserId : String
  First_Name : String
  Last_Name : String
  Role : String
  Status_ID : Nat
  Address : Option String
  LastLoggedIn : Option (Option Int)
deriving Repr, DecidableEq

/-- A document of `accounts_collection` (app.py:126-132): Mongo `_id`,
owner, balance, branch, stored activity flag, last-transaction time. -/
structure Account where
  id : Nat
  UserId : String
  Balance : Int
  Branch : String
  ActivityStatus : String
  LastTransaction : Int
deriving Repr, DecidableEq

/-- A document of `transactions_collection` (utils.py:1161-1178). -/
structure Txn where
  TransactionId : String
  UserId : String
  AccountId : String
  TransactionAmount : Int
  TransactionDate : Int
  TransactionType : String
deriving Repr, DecidableEq

/-- A document of `login_history_collection` (utils.py `track_login`):
the `Month` field is the "YYYY-MM" string of `LoginTime`. -/
structure LoginRecord where
  UserId : String
  LoginTime : Int
  Month : String
deriving Repr, DecidableEq

/-- The database state: one list per collection, plus the `user_id` row of
`counters_collection` (`none` while that row does not exist yet) and the
`status` reference collection as id/name pairs. -/
structure DB where
  users : List User
  accounts : List Account
  transactions : List Txn
  login_history : List LoginRecord
  counter : Option Nat
  statuses : List (Nat × String)
deriving Repr, DecidableEq

/-! ## Transaction validation and the `/make_transaction` handler -/

/-- Request body of `/make_transaction`: JSON fields `amount` and `type`,
either of which may be missing. -/
structure TxnData where
  amount : Option Int
  type : Option String
deriving Repr, DecidableEq

/-- Embeds `validate_transaction_data` (utils.py:660-667): both keys must be
present, the amount numeric, and the type exactly "Credit" or "Debit"
(case-sensitive membership test `data["type"] not in ["Credit", "Debit"]`).
`true` means no `ValueError` is raised. -/
def validate_transaction_data (d : TxnData) : Bool :=
  match d.amount, d.type with
  | some _, some t => t == "Credit" || t == "Debit"
  | _, _ => false

/-- Embeds Python `str.capitalize` (used at app.py:479): first character
upper-cased, the rest lower-cased. -/
def pyCapitalize (s : String) : String :=
  match s.data with
  | [] => ""
  | c :: cs => String.mk (c.toUpper :: cs.map Char.toLower)

/-- Embeds `accounts_collection.update_one({"_id": account["_id"]}, {"$set":
{"Balance": .., "LastTransaction": ..}})` (app.py:495-503): the first document
with the given `_id` gets exactly those two fields replaced. -/
def update_one_account : List Account → Nat → Int → Int → List Account
  | [], _, _, _ => []
  | a :: rest, aid, nb, now =>
    if a.id = aid then { a with Balance := nb, LastTransaction := now } :: rest
    else a :: update_one_account rest aid nb now

/-- Embeds `create_transaction` (utils.py:1161-1178).  The insert sits in a
try/except that only prints on failure, so a failed insert (`insertOk =
false`) leaves the collection unchanged and raises nothing. -/
def create_transaction (db : DB) (uid accountId : String) (amount : Int)
    (txnType : String) (now : Int) (txnId : String) (insertOk : Bool) : DB :=
  if insertOk then
    { db with transactions :=
        db.transactions ++ [⟨txnId, uid, accountId, amount, now, txnType⟩] }
  else db

/-- Outcome of the `/make_transaction` handler: each error constructor is one
of its early-return JSON error responses; `success` carries the reported
`new_balance`. -/
inductive TxnOutcome
  | validationError
  | nonPositiveAmount
  | accountNotFound
  | insufficientBalance
  | invalidType
  | success (newBalance : Int)
deriving Repr, DecidableEq

/-- Embeds the balance write of the handler: replace the matched account's
`Balance` and `LastTransaction` in the accounts collection. -/
def apply_balance_update (db : DB) (aid : Nat) (nb now : Int) : DB :=
  { db with accounts := update_one_account db.accounts aid nb now }

/-- Embeds the `/make_transaction` handler body after authentication
(app.py:465-513) for the logged-in customer `uid`: validate, reject
non-positive amounts, look the account up by `UserId`, capitalize the type,
apply credit unconditionally or debit guarded by `new_balance <
data["amount"]`, then write the new balance with `update_one` and append the
ledger record with `create_transaction` (whose insert may fail silently,
`ledgerInsertOk`). -/
def make_transaction (db : DB) (uid : String) (d : TxnData) (now : Int)
    (txnId : String) (ledgerInsertOk : Bool) : TxnOutcome × DB :=
  if validate_transaction_data d then
    match d.amount, d.type with
    | some amount, some ty =>
      if amount ≤ 0 then (.nonPositiveAmount, db)
      else
        match db.accounts.find? (fun a => a.UserId == uid) with
        | none => (.accountNotFound, db)
        | some account =>
          if pyCapitalize ty = "Credit" then
            (.success (account.Balance + amount),
             create_transaction
               (apply_balance_update db account.id (account.Balance + amount) now)
               uid (toString account.id) amount (pyCapitalize ty) now txnId
               ledgerInsertOk)
          else if pyCapitalize ty = "Debit" then
            if account.Balance < amount then (.insufficientBalance, db)
            else
              (.success (account.Balance - amount),
               create_transaction
                 (apply_balance_update db account.id (account.Balance - amount) now)
                 uid (toString account.id) amount (pyCapitalize ty) now txnId
                 ledgerInsertOk)
          else (.invalidType, db)
    | _, _ => (.validationError, db)
  else (.validationError, db)

/-- Signed sum of the ledger records of one account: credits count positive,
debits negative (the reconstruction the spec demands of the ledger). -/
def ledgerSum (db : DB) (accountId : String) : Int :=
  (db.transactions.filter (fun t => t.AccountId == accountId)).foldl
    (fun s t => if t.TransactionType = "Credit" then s + t.TransactionAmount
                else s - t.TransactionAmount) 0

/-- Concrete state for C1: one customer account with balance 100, a ledger
whose signed sum is also 100 (consistent before the transaction). -/
def c1db : DB :=
  { users := [], accounts := [⟨1, "U1", 100, "Mumbai", "Active", 0⟩],
    transactions := [⟨"T0", "U1", "1", 100, 0, "Credit"⟩],
    login_history := [], counter := none, statuses := [] }

/-- C1: the balance write and the ledger append are not one atomic unit.  At
`c1db` (balance 100 = ledger sum 100) an accepted credit of 50 during which
the `transactions_collection` insert fails is swallowed by `create_transaction`;
the handler still reports success with new balance 150, the stored balance
becomes 150, but the ledger sum stays 100 — a state where the balance was
updated without the matching ledger entry. -/
theorem c1_balance_without_ledger_entry :
    ledgerSum c1db "1" = 100 ∧
    c1db.accounts.map (fun a => a.Balance) = [100] ∧
    (make_transaction c1db "U1" ⟨some 50, some "Credit"⟩ 10 "T1" false).1
      = TxnOutcome.success 150 ∧
    (make_transaction c1db "U1" ⟨some 50, some "Credit"⟩ 10 "T1" false).2.accounts.map
      (fun a => a.Balance) = [150] ∧
    ledgerSum (make_transaction c1db "U1" ⟨some 50, some "Credit"⟩ 10 "T1" false).2 "1"
      = 100 := by
  decide

lemma pyCapitalize_Credit : pyCapitalize "Credit" = "Credit" := by decide

lemma pyCapitalize_Debit : pyCapitalize "Debit" = "Debit" := by decide

/-- C2: a debit whose amount exceeds the balance is rejected with the
insufficient-balance error leaving the whole state (balance and ledger)
unchanged; a debit with amount ≤ balance succeeds with new balance
balance − amount; a credit unconditionally succeeds with balance + amount. -/
theorem c2_no_overdraft_and_arithmetic (db : DB) (uid : String) (a : Int)
    (acct : Account)
    (hfind : db.accounts.find? (fun x => x.UserId == uid) = some acct)
    (hpos : 0 < a) (now : Int) (tid : String) (okF : Bool) :
    (acct.Balance < a →
      make_transaction db uid ⟨some a, some "Debit"⟩ now tid okF
        = (TxnOutcome.insufficientBalance, db)) ∧
    (a ≤ acct.Balance →
      (make_transaction db uid ⟨some a, some "Debit"⟩ now tid okF).1
        = TxnOutcome.success (acct.Balance - a)) ∧
    (make_transaction db uid ⟨some a, some "Credit"⟩ now tid okF).1
      = TxnOutcome.success (acct.Balance + a) := by
  have hnp : ¬ a ≤ 0 := not_le.mpr hpos
  refine ⟨fun hlt => ?_, fun hle => ?_, ?_⟩
  · simp [make_transaction, validate_transaction_data, hnp, hfind,
          pyCapitalize_Debit, hlt]
  · simp [make_transaction, validate_transaction_data, hnp, hfind,
          pyCapitalize_Debit, not_lt.mpr hle]
  · simp [make_transaction, validate_transaction_data, hnp, hfind,
          pyCapitalize_Credit]

/-- Concrete state for the C2 witness: one account with balance 100. -/
def c2db : DB :=
  { users := [], accounts := [⟨7, "U1", 100, "Delhi", "Active", 0⟩],
    transactions := [], login_history := [], counter := none, statuses := [] }

/-- C2 witness: at balance 100, a debit of 150 is rejected unchanged, a debit
of 40 yields 60, a credit of 40 yields 140. -/
theorem c2_witness :
    make_transaction c2db "U1" ⟨some 150, some "Debit"⟩ 5 "T" true
      = (TxnOutcome.insufficientBalance, c2db) ∧
    (make_transaction c2db "U1" ⟨some 40, some "Debit"⟩ 5 "T" true).1
      = TxnOutcome.success 60 ∧
    (make_transaction c2db "U1" ⟨some 40, some "Credit"⟩ 5 "T" true).1
      = TxnOutcome.success 140 := by
  have h150 := c2_no_overdraft_and_arithmetic c2db "U1" 150
    ⟨7, "U1", 100, "Delhi", "Active", 0⟩ (by decide) (by decide) 5 "T" true
  have h40 := c2_no_overdraft_and_arithmetic c2db "U1" 40
    ⟨7, "U1", 100, "Delhi", "Active", 0⟩ (by decide) (by decide) 5 "T" true
  refine ⟨h150.1 (by decide), ?_, ?_⟩
  · have h := h40.2.1 (by decide)
    norm_num at h
    exact h
  · have h := h40.2.2
    norm_num at h
    exact h

/-- Characterization of `validate_transaction_data`. -/
lemma validate_transaction_data_true_iff (d : TxnData) :
    validate_transaction_data d = true ↔
      (∃ a, d.amount = some a) ∧
      (d.type = some "Credit" ∨ d.type = some "Debit") := by
  obtain ⟨amount, ty⟩ := d
  cases amount <;> cases ty <;>
    simp [validate_transaction_data]

/-- C10: validation accepts exactly the strings "Credit" and "Debit" as the
transaction type (other casings such as "credit" and "DEBIT" are rejected),
and for every request that passes validation the handler's
invalid-transaction-type branch is unreachable. -/
theorem c10_type_validation :
    (∀ d : TxnData, validate_transaction_data d = true ↔
      (∃ a, d.amount = some a) ∧
      (d.type = some "Credit" ∨ d.type = some "Debit")) ∧
    validate_transaction_data ⟨some 1, some "credit"⟩ = false ∧
    validate_transaction_data ⟨some 1, some "DEBIT"⟩ = false ∧
    (∀ (db : DB) (uid : String) (d : TxnData) (now : Int) (tid : String)
        (okF : Bool), validate_transaction_data d = true →
      (make_transaction db uid d now tid okF).1 ≠ TxnOutcome.invalidType) := by
  refine ⟨validate_transaction_data_true_iff, by decide, by decide, ?_⟩
  intro db uid d now tid okF hv
  obtain ⟨⟨a, ha⟩, hty⟩ := (validate_transaction_data_true_iff d).mp hv
  obtain ⟨amount, ty⟩ := d
  simp only at ha
  subst ha
  rcases le_or_lt a 0 with h0 | h0
  · rcases hty with h1 | h1 <;> simp only at h1 <;> subst h1 <;>
      simp [make_transaction, validate_transaction_data, h0]
  · have hnp : ¬ a ≤ 0 := not_le.mpr h0
    rcases hty with h1 | h1 <;> simp only at h1 <;> subst h1
    · cases hf : db.accounts.find? (fun x => x.UserId == uid) with
      | none =>
        simp [make_transaction, validate_transaction_data, hnp, hf]
      | some acct =>
        simp [make_transaction, validate_transaction_data, hnp, hf,
              pyCapitalize_Credit]
    · cases hf : db.accounts.find? (fun x => x.UserId == uid) with
      | none =>
        simp [make_transaction, validate_transaction_data, hnp, hf]
      | some acct =>
        rcases lt_or_le acct.Balance a with hb | hb
        · simp [make_transaction, validate_transaction_data, hnp, hf,
                pyCapitalize_Debit, hb]
        · simp [make_transaction, validate_transaction_data, hnp, hf,
                pyCapitalize_Debit, not_lt.mpr hb]

/-- C10 witness: a validated debit request on an empty store reaches the
account-not-found response, not the invalid-type branch. -/
theorem c10_witness :
    (make_transaction ⟨[], [], [], [], none, []⟩ "U1" ⟨some 5, some "Debit"⟩
      0 "T" true).1 ≠ TxnOutcome.invalidType :=
  c10_type_validation.2.2.2 ⟨[], [], [], [], none, []⟩ "U1"
    ⟨some 5, some "Debit"⟩ 0 "T" true (by decide)

/-! ## Sequence allocator (`generate_next_user_id`, utils.py:129-165) -/

/-- Embeds Python `str.isdigit` on the ASCII identifiers this system uses:
non-empty and all characters digits. -/
def pyIsDigit (s : String) : Bool := !s.data.isEmpty && s.data.all Char.isDigit

/-- Decimal value of a digit string: embeds Python `int(user_id)` on ids that
pass `isdigit`. -/
def pyInt (s : String) : Nat :=
  s.data.foldl (fun n c => n * 10 + (c.toNat - 48)) 0

/-- Embeds the seeding loop of `generate_next_user_id` (utils.py:136-144):
starting from an initial value, fold `max` over the numeric `UserId`s
(`int(user_id)` of every id passing `isdigit`). -/
def seedFold (l : List User) (i : Nat) : Nat :=
  l.foldl
    (fun m u => if pyIsDigit u.UserId then max m (pyInt u.UserId)
                else m) i

/-- The counter seed: `max_id = 56125810020` then the fold over existing
users (utils.py:137). -/
def seedMax (users : List User) : Nat := seedFold users 56125810020

/-- Embeds `generate_next_user_id` (utils.py:129-158), success path: if the
`user_id` counter row is missing it is first inserted with the seed value;
then `find_one_and_update` atomically increments the sequence and the new
value is returned as its decimal string. -/
def generate_next_user_id (db : DB) : String × DB :=
  match db.counter with
  | some seq => (toString (seq + 1), { db with counter := some (seq + 1) })
  | none =>
      let m := seedMax db.users
      (toString (m + 1), { db with counter := some (m + 1) })

/-- The effective counter value a call starts from. -/
def baseCounter (db : DB) : Nat :=
  match db.counter with
  | some c => c
  | none => seedMax db.users

/-- State after `n` successive allocations. -/
def allocState (db : DB) : Nat → DB
  | 0 => db
  | n + 1 => (generate_next_user_id (allocState db n)).2

/-- Identifier returned by the `(n+1)`-th allocation. -/
def allocNth (db : DB) (n : Nat) : String :=
  (generate_next_user_id (allocState db n)).1

/-- Numeric value of the identifier returned by the `(n+1)`-th allocation. -/
def allocNthNum (db : DB) (n : Nat) : Nat :=
  baseCounter (allocState db n) + 1

lemma generate_next_user_id_eq (db : DB) :
    generate_next_user_id db
      = (toString (baseCounter db + 1),
         { db with counter := some (baseCounter db + 1) }) := by
  cases h : db.counter <;> simp [generate_next_user_id, baseCounter, h]

lemma baseCounter_allocState (db : DB) (n : Nat) :
    baseCounter (allocState db n) = baseCounter db + n := by
  induction n with
  | zero => rfl
  | succ n ih =>
    have h : baseCounter (allocState db (n + 1))
        = baseCounter (allocState db n) + 1 := by
      show baseCounter (generate_next_user_id (allocState db n)).2 = _
      rw [generate_next_user_id_eq]
      rfl
    rw [h, ih]
    omega

lemma allocNthNum_eq (db : DB) (n : Nat) :
    allocNthNum db n = baseCounter db + n + 1 := by
  simp [allocNthNum, baseCounter_allocState]

lemma seedFold_cons (v : User) (l : List User) (i : Nat) :
    seedFold (v :: l) i
      = seedFold l (if pyIsDigit v.UserId then max i (pyInt v.UserId) else i) :=
  rfl

lemma le_seedFold_init (l : List User) (i : Nat) : i ≤ seedFold l i := by
  induction l generalizing i with
  | nil => simp [seedFold]
  | cons v l ih =>
    rw [seedFold_cons]
    have h1 : i ≤ (if pyIsDigit v.UserId then
        max i (pyInt v.UserId) else i) := by
      split
      · exact le_max_left _ _
      · exact le_refl _
    exact le_trans h1 (ih _)

lemma mem_le_seedFold (l : List User) (i : Nat) :
    ∀ u ∈ l, pyIsDigit u.UserId = true →
      pyInt u.UserId ≤ seedFold l i := by
  induction l generalizing i with
  | nil => simp
  | cons v l ih =>
    intro u hu hd
    rw [seedFold_cons]
    rcases List.mem_cons.mp hu with rfl | hu
    · have h1 : pyInt u.UserId ≤ (if pyIsDigit u.UserId then
          max i (pyInt u.UserId) else i) := by
        rw [if_pos hd]
        exact le_max_right _ _
      exact le_trans h1 (le_seedFold_init l _)
    · exact ih _ u hu hd

/-- Concrete seeding example: a user store holding numeric ids 5, 12, 7 and
no counter row. -/
def seedExampleDb : DB :=
  { users := [⟨"5", "A", "A", "Customer", 1, none, some none⟩,
              ⟨"12", "B", "B", "Customer", 1, none, some none⟩,
              ⟨"7", "C", "C", "Customer", 1, none, some none⟩],
    accounts := [], transactions := [], login_history := [],
    counter := none, statuses := [] }

/-- C3: each allocation increments the persisted counter by one and returns
the new value as its decimal string; the numeric values of successive
allocations are strictly increasing; when the counter is seeded, every
allocation exceeds every numeric identifier present in the user store at
counter-initialization time; in particular, seeding over numeric ids
5, 12, 7 makes the first allocation return a value greater than 12. -/
theorem c3_allocator_strictly_increasing (db : DB) :
    (∀ c, db.counter = some c →
      generate_next_user_id db
        = (toString (c + 1), { db with counter := some (c + 1) })) ∧
    (∀ n, allocNth db n = toString (allocNthNum db n)) ∧
    (∀ m n, m < n → allocNthNum db m < allocNthNum db n) ∧
    (db.counter = none → ∀ u ∈ db.users, pyIsDigit u.UserId = true →
      ∀ n, pyInt u.UserId < allocNthNum db n) ∧
    12 < allocNthNum seedExampleDb 0 ∧
    allocNth seedExampleDb 0 = "56125810021" := by
  refine ⟨?_, ?_, ?_, ?_, ?_, ?_⟩
  · intro c hc
    rw [generate_next_user_id_eq]
    simp [baseCounter, hc]
  · intro n
    simp [allocNth, allocNthNum, generate_next_user_id_eq]
  · intro m n h
    rw [allocNthNum_eq, allocNthNum_eq]
    omega
  · intro h0 u hu hd n
    rw [allocNthNum_eq]
    have h1 := mem_le_seedFold db.users 56125810020 u hu hd
    have h2 : baseCounter db = seedMax db.users := by simp [baseCounter, h0]
    rw [h2]
    have h3 : pyInt u.UserId ≤ seedMax db.users := h1
    omega
  · decide
  · decide

/-- Concrete state for the C3 witness: counter row present at 5. -/
def c3wdb : DB :=
  { users := [], accounts := [], transactions := [], login_history := [],
    counter := some 5, statuses := [] }

/-- C3 witness: from a counter at 5 the next allocation stores 6 and returns
"6". -/
theorem c3_witness :
    generate_next_user_id c3wdb
      = (toString (5 + 1), { c3wdb with counter := some (5 + 1) }) :=
  (c3_allocator_strictly_increasing c3wdb).1 5 rfl

/-- Caller-visible outcome of the full `generate_next_user_id` including its
try/except (utils.py:160-165): a returned identifier string plus whether the
except branch printed an error message. -/
structure AllocOutcome where
  value : String
  loggedError : Bool
deriving Repr, DecidableEq

/-- Embeds the whole of `generate_next_user_id` with its exception handler:
when storage is reachable the normal path runs; when it is unreachable the
except branch prints the error and returns `str(int(time.time()))` — a
time-derived identifier delivered through the same return path, with no
error surfaced to the caller. -/
def generate_next_user_id_total (db : DB) (storageOk : Bool) (timeNow : Nat) :
    AllocOutcome × DB :=
  if storageOk then
    (⟨(generate_next_user_id db).1, false⟩, (generate_next_user_id db).2)
  else (⟨toString timeNow, true⟩, db)

/-- Concrete state for C4: counter row at 56125810020. -/
def c4db : DB :=
  { users := [], accounts := [], transactions := [], login_history := [],
    counter := some 56125810020, statuses := [] }

/-- C4 counterexample: with storage unreachable the allocator does not fail —
it returns the identifier "56125810021" through the normal return path, and a
genuine allocation from `c4db` returns the very same string, so the caller
cannot tell the fabricated identifier from a normal allocation. -/
theorem c4_counterexample :
    (generate_next_user_id_total c4db false 56125810021).1.value
      = "56125810021" ∧
    (generate_next_user_id_total c4db false 56125810021).1.loggedError
      = true ∧
    (generate_next_user_id_total c4db true 0).1.value = "56125810021" ∧
    (generate_next_user_id_total c4db true 0).1.loggedError = false := by
  decide

/-- C4 (amended): when the persistence layer is unreachable the allocator
logs the failure and returns the time-derived identifier
`str(int(time.time()))` with the state unchanged; no error reaches the
caller, and for any positive time value some normal allocation produces the
identical caller-visible identifier. -/
theorem c4_fallback_amended (db : DB) (t : Nat) :
    generate_next_user_id_total db false t = (⟨toString t, true⟩, db) ∧
    (0 < t → ∃ db2 : DB, db2.counter = some (t - 1) ∧
      (generate_next_user_id_total db2 true 0).1.value = toString t ∧
      (generate_next_user_id_total db2 true 0).1.loggedError = false) := by
  refine ⟨rfl, fun ht =>
    ⟨⟨[], [], [], [], some (t - 1), []⟩, rfl, ?_, rfl⟩⟩
  simp [generate_next_user_id_total, generate_next_user_id_eq, baseCounter,
        Nat.sub_add_cancel ht]

/-- C4 witness: the fallback/normal indistinguishability at time value 5. -/
theorem c4_witness :
    ∃ db2 : DB, db2.counter = some 4 ∧
      (generate_next_user_id_total db2 true 0).1.value = toString 5 ∧
      (generate_next_user_id_total db2 true 0).1.loggedError = false :=
  (c4_fallback_amended ⟨[], [], [], [], none, []⟩ 5).2 (by decide)

/-! ## Frame property of `/make_transaction` (C9) -/

lemma create_transaction_users (db : DB) (uid aid : String) (m : Int)
    (ty : String) (now : Int) (tid : String) (ok : Bool) :
    (create_transaction db uid aid m ty now tid ok).users = db.users := by
  unfold create_transaction
  split <;> rfl

lemma create_transaction_accounts (db : DB) (uid aid : String) (m : Int)
    (ty : String) (now : Int) (tid : String) (ok : Bool) :
    (create_transaction db uid aid m ty now tid ok).accounts = db.accounts := by
  unfold create_transaction
  split <;> rfl

lemma create_transaction_login_history (db : DB) (uid aid : String) (m : Int)
    (ty : String) (now : Int) (tid : String) (ok : Bool) :
    (create_transaction db uid aid m ty now tid ok).login_history
      = db.login_history := by
  unfold create_transaction
  split <;> rfl

lemma create_transaction_counter (db : DB) (uid aid : String) (m : Int)
    (ty : String) (now : Int) (tid : String) (ok : Bool) :
    (create_transaction db uid aid m ty now tid ok).counter = db.counter := by
  unfold create_transaction
  split <;> rfl

/-- Relation between a pre-state account document and its post-state
counterpart: either untouched, or it is the acting customer's account and
its `UserId`, `Branch`, `ActivityStatus` and `_id` are unchanged (only
`Balance` and `LastTransaction` may differ). -/
def accountFramed (uid : String) (a b : Account) : Prop :=
  b = a ∨ (a.UserId = uid ∧ b.UserId = a.UserId ∧ b.Branch = a.Branch ∧
           b.ActivityStatus = a.ActivityStatus ∧ b.id = a.id)

lemma update_one_frame (uid : String) (l : List Account) (aid : Nat)
    (nb now : Int) (hmem : ∀ a ∈ l, a.id = aid → a.UserId = uid) :
    List.Forall₂ (accountFramed uid) l (update_one_account l aid nb now) := by
  induction l with
  | nil => exact List.Forall₂.nil
  | cons a rest ih =>
    simp only [update_one_account]
    split
    next h =>
      refine List.Forall₂.cons
        (Or.inr ⟨hmem a (List.mem_cons_self a rest) h, rfl, rfl, rfl, rfl⟩) ?_
      exact List.forall₂_same.mpr (fun x _ => Or.inl rfl)
    next h =>
      exact List.Forall₂.cons (Or.inl rfl)
        (ih (fun b hb hbid => hmem b (List.mem_cons_of_mem a hb) hbid))

lemma account_id_inj {l : List Account}
    (h : (l.map (fun a => a.id)).Nodup) :
    ∀ a ∈ l, ∀ b ∈ l, a.id = b.id → a = b :=
  fun _ ha _ hb hid => List.inj_on_of_nodup_map h ha hb hid

lemma frame_of_update (db : DB) (uid : String) (account : Account)
    (heq : db.accounts.find? (fun a => a.UserId == uid) = some account)
    (hids : (db.accounts.map (fun a => a.id)).Nodup)
    (nb now : Int) (uid2 aid : String) (m : Int) (ty tid : String)
    (ok : Bool) :
    (create_transaction (apply_balance_update db account.id nb now)
        uid2 aid m ty now tid ok).users = db.users ∧
    (create_transaction (apply_balance_update db account.id nb now)
        uid2 aid m ty now tid ok).login_history = db.login_history ∧
    (create_transaction (apply_balance_update db account.id nb now)
        uid2 aid m ty now tid ok).counter = db.counter ∧
    List.Forall₂ (accountFramed uid) db.accounts
      (create_transaction (apply_balance_update db account.id nb now)
        uid2 aid m ty now tid ok).accounts := by
  have hacc : account ∈ db.accounts := List.mem_of_find?_eq_some heq
  have huid : account.UserId = uid := by
    have := List.find?_some heq
    simpa using this
  have hmem : ∀ a ∈ db.accounts, a.id = account.id → a.UserId = uid := by
    intro a ha hid
    have : a = account := account_id_inj hids a ha account hacc hid
    rw [this]
    exact huid
  refine ⟨?_, ?_, ?_, ?_⟩
  · rw [create_transaction_users]
    rfl
  · rw [create_transaction_login_history]
    rfl
  · rw [create_transaction_counter]
    rfl
  · rw [create_transaction_accounts]
    exact update_one_frame uid db.accounts account.id nb now hmem

/-- C9: a successful `/make_transaction` leaves every user document, the
login history and the id counter untouched, and relates the accounts
collection before and after pointwise: every account document is either
unchanged, or it is the acting customer's account with its `UserId`,
`Branch`, `ActivityStatus` and `_id` preserved (only `Balance` and
`LastTransaction` modified).  Mongo's unique `_id` index is the
`hids` hypothesis. -/
theorem c9_frame (db : DB) (uid : String) (d : TxnData) (now : Int)
    (tid : String) (okF : Bool) (nb : Int) (db' : DB)
    (hids : (db.accounts.map (fun a => a.id)).Nodup)
    (h : make_transaction db uid d now tid okF = (TxnOutcome.success nb, db')) :
    db'.users = db.users ∧ db'.login_history = db.login_history ∧
    db'.counter = db.counter ∧
    List.Forall₂ (accountFramed uid) db.accounts db'.accounts := by
  unfold make_transaction at h
  split at h
  · split at h
    · split at h
      · simp at h
      · split at h
        · simp at h
        · next account heq =>
          split at h
          · rw [Prod.mk.injEq] at h
            obtain ⟨h1, h2⟩ := h
            rw [← h2]
            exact frame_of_update db uid account heq hids _ now uid
              (toString account.id) _ _ tid okF
          · split at h
            · split at h
              · simp at h
              · rw [Prod.mk.injEq] at h
                obtain ⟨h1, h2⟩ := h
                rw [← h2]
                exact frame_of_update db uid account heq hids _ now uid
                  (toString account.id) _ _ tid okF
            · simp at h
    · simp at h
  · simp at h

/-- Concrete state for the C9 witness: two accounts, the second belongs to
the acting customer. -/
def c9db : DB :=
  { users := [⟨"U9", "F", "L", "Customer", 1, none, some none⟩],
    accounts := [⟨1, "U1", 50, "Pune", "Active", 0⟩,
                 ⟨2, "U2", 80, "Agra", "Active", 0⟩],
    transactions := [], login_history := [], counter := some 3,
    statuses := [] }

/-- C9 witness: a successful credit by customer U2 frames everything but
U2's balance and last-transaction time. -/
theorem c9_witness :
    (make_transaction c9db "U2" ⟨some 20, some "Credit"⟩ 9 "T9" true).2.users
        = c9db.users ∧
    (make_transaction c9db "U2" ⟨some 20, some "Credit"⟩ 9 "T9" true).2.login_history
        = c9db.login_history ∧
    (make_transaction c9db "U2" ⟨some 20, some "Credit"⟩ 9 "T9" true).2.counter
        = c9db.counter ∧
    List.Forall₂ (accountFramed "U2") c9db.accounts
      (make_transaction c9db "U2" ⟨some 20, some "Credit"⟩ 9 "T9" true).2.accounts :=
  c9_frame c9db "U2" ⟨some 20, some "Credit"⟩ 9 "T9" true 100
    (make_transaction c9db "U2" ⟨some 20, some "Credit"⟩ 9 "T9" true).2
    (by decide) (by decide)

/-! ## Activity derivation in `/get_users` (app.py:209-242) -/

/-- Embeds `get_status_name` (utils.py:760-767): look the id up in the
status reference collection, "Unknown" when absent. -/
def get_status_name (db : DB) (sid : Nat) : String :=
  match db.statuses.find? (fun p => p.1 == sid) with
  | some p => p.2
  | none => "Unknown"

/-- One entry of the `/get_users` response: the stored user document plus
the two added fields `DatabaseStatus` and `ActivityStatus`. -/
structure UserView where
  user : User
  DatabaseStatus : String
  ActivityStatus : String
deriving Repr, DecidableEq

/-- 90 days in seconds (`timedelta(days=90)` on an integer timeline). -/
def ninetyDays : Int := 90 * 86400

/-- Embeds the `recent_login_users` set (app.py:216-225): the ids of login
records whose `LoginTime` is at or after the threshold. -/
def recentLoginUserIds (db : DB) (threshold : Int) : List String :=
  (db.login_history.filter (fun r => decide (threshold ≤ r.LoginTime))).map
    (fun r => r.UserId)

/-- Embeds the `/get_users` handler (app.py:209-242): every stored user is
returned, annotated with its stored status name and with `ActivityStatus`
"Active" exactly when the user id appears among logins of the trailing 90
days. -/
def get_users (db : DB) (now : Int) : List UserView :=
  db.users.map (fun u =>
    { user := u,
      DatabaseStatus := get_status_name db u.Status_ID,
      ActivityStatus :=
        if u.UserId ∈ recentLoginUserIds db (now - ninetyDays) then "Active"
        else "Inactive" })

lemma mem_recentLoginUserIds (db : DB) (th : Int) (uid : String) :
    uid ∈ recentLoginUserIds db th ↔
      ∃ r ∈ db.login_history, r.UserId = uid ∧ th ≤ r.LoginTime := by
  constructor
  · intro hmem
    have h : ∃ r, (r ∈ db.login_history ∧ th ≤ r.LoginTime) ∧ r.UserId = uid := by
      simpa [recentLoginUserIds, List.mem_map, List.mem_filter] using hmem
    obtain ⟨r, ⟨hr, hle⟩, hu⟩ := h
    exact ⟨r, hr, hu, hle⟩
  · rintro ⟨r, hr, hu, hle⟩
    simp only [recentLoginUserIds, List.mem_map]
    exact ⟨r, List.mem_filter.mpr ⟨hr, by simpa using hle⟩, hu⟩

/-- C5: assuming no login record lies in the future of the evaluation time,
`/get_users` reports every stored identity (none excluded), marks it
"Active" exactly when it has a login event inside the trailing 90-day window
ending at the evaluation time, and "Inactive" exactly otherwise (so an
identity with no login events at all is reported Inactive). -/
theorem c5_activity_window (db : DB) (now : Int)
    (hpast : ∀ r ∈ db.login_history, r.LoginTime ≤ now) :
    (get_users db now).length = db.users.length ∧
    ∀ u ∈ db.users, ∃ v ∈ get_users db now, v.user = u ∧
      (v.ActivityStatus = "Active" ↔ ∃ r ∈ db.login_history,
        r.UserId = u.UserId ∧ now - ninetyDays ≤ r.LoginTime ∧
        r.LoginTime ≤ now) ∧
      (v.ActivityStatus = "Inactive" ↔ ¬ ∃ r ∈ db.login_history,
        r.UserId = u.UserId ∧ now - ninetyDays ≤ r.LoginTime ∧
        r.LoginTime ≤ now) := by
  have hwin : ∀ u : User,
      (u.UserId ∈ recentLoginUserIds db (now - ninetyDays) ↔
        ∃ r ∈ db.login_history, r.UserId = u.UserId ∧
          now - ninetyDays ≤ r.LoginTime ∧ r.LoginTime ≤ now) := by
    intro u
    rw [mem_recentLoginUserIds]
    constructor
    · rintro ⟨r, hr, hu, hle⟩
      exact ⟨r, hr, hu, hle, hpast r hr⟩
    · rintro ⟨r, hr, hu, hle, _⟩
      exact ⟨r, hr, hu, hle⟩
  refine ⟨List.length_map _ _, ?_⟩
  intro u hu
  refine ⟨_, List.mem_map_of_mem _ hu, rfl, ?_, ?_⟩
  · by_cases hm : u.UserId ∈ recentLoginUserIds db (now - ninetyDays)
    · simp only [if_pos hm]
      exact iff_of_true (by trivial) ((hwin u).mp hm)
    · simp only [if_neg hm]
      exact iff_of_false (by decide) (fun hc => hm ((hwin u).mpr hc))
  · by_cases hm : u.UserId ∈ recentLoginUserIds db (now - ninetyDays)
    · simp only [if_pos hm]
      exact iff_of_false (by decide) (fun hc => hc ((hwin u).mp hm))
    · simp only [if_neg hm]
      exact iff_of_true (by trivial) (fun hc => hm ((hwin u).mpr hc))

/-- Concrete state for the C5 witness: one user who logged in 10 days before
the evaluation time, one user with no login events. -/
def c5db : DB :=
  { users := [⟨"U1", "F", "L", "Customer", 1, none, some none⟩,
              ⟨"U2", "G", "M", "Customer", 1, none, some none⟩],
    accounts := [], transactions := [],
    login_history := [⟨"U1", 9000000 - 10 * 86400, "2026-10"⟩],
    counter := none, statuses := [] }

/-- C5 witness: the theorem instantiated at `c5db` with evaluation time
9000000. -/
theorem c5_witness :
    (get_users c5db 9000000).length = c5db.users.length ∧
    ∀ u ∈ c5db.users, ∃ v ∈ get_users c5db 9000000, v.user = u ∧
      (v.ActivityStatus = "Active" ↔ ∃ r ∈ c5db.login_history,
        r.UserId = u.UserId ∧ 9000000 - ninetyDays ≤ r.LoginTime ∧
        r.LoginTime ≤ 9000000) ∧
      (v.ActivityStatus = "Inactive" ↔ ¬ ∃ r ∈ c5db.login_history,
        r.UserId = u.UserId ∧ 9000000 - ninetyDays ≤ r.LoginTime ∧
        r.LoginTime ≤ 9000000) :=
  c5_activity_window c5db 9000000 (by decide)

/-! ## Dashboard statistics (`/get_dashboard_stats`, app.py:245-323) -/

/-- The response fields of `/get_dashboard_stats` (app.py:291-301). -/
structure DashboardStats where
  total_users : Nat
  active_users : Nat
  inactive_users : Nat
  suspended_users : Nat
  status_active_users : Nat
  customers : Nat
  staff_members : Nat
  recent_logins : Nat
  total_balance : Int
deriving Repr, DecidableEq

/-- 7 days in seconds (`timedelta(days=7)`). -/
def sevenDays : Int := 7 * 86400

/-- Embeds `/get_dashboard_stats` (app.py:245-323) for a caller with the
given role: total user count; `active_users` as the number of distinct user
ids with a login in the trailing 90 days; stored-status counts for
`Status_ID` 1, 2 and 3; role counts (`staff_members` = admins plus
employees); the count of login records in the trailing 7 days; and the
summed balance over all accounts only for Admin/Super_Admin callers. -/
def get_dashboard_stats (db : DB) (now : Int) (callerRole : String) :
    DashboardStats :=
  { total_users := db.users.length,
    active_users := (recentLoginUserIds db (now - ninetyDays)).dedup.length,
    inactive_users := db.users.countP (fun u => decide (u.Status_ID = 2)),
    suspended_users := db.users.countP (fun u => decide (u.Status_ID = 3)),
    status_active_users := db.users.countP (fun u => decide (u.Status_ID = 1)),
    customers := db.users.countP (fun u => decide (u.Role = "Customer")),
    staff_members :=
      db.users.countP
        (fun u => decide (u.Role = "Admin" ∨ u.Role = "Super_Admin"))
      + db.users.countP (fun u => decide (u.Role = "Employee")),
    recent_logins :=
      db.login_history.countP (fun r => decide (now - sevenDays ≤ r.LoginTime)),
    total_balance :=
      if callerRole = "Admin" ∨ callerRole = "Super_Admin" then
        (db.accounts.map (fun a => a.Balance)).sum
      else 0 }

/-- Modelled from the spec's words, for comparison only: the derived-inactive
count — the number of identities with no login event in the trailing 90-day
window. -/
def derivedInactiveCount (db : DB) (now : Int) : Nat :=
  db.users.countP (fun u =>
    decide (¬ ∃ r ∈ db.login_history,
      r.UserId = u.UserId ∧ now - ninetyDays ≤ r.LoginTime))

/-- Concrete state for C6: two users (stored statuses 1 and 4), neither has
ever logged in. -/
def c6db : DB :=
  { users := [⟨"U1", "F", "L", "Customer", 1, none, some none⟩,
              ⟨"U2", "G", "M", "Customer", 4, none, some none⟩],
    accounts := [], transactions := [], login_history := [],
    counter := none, statuses := [] }

/-- C6 counterexample: at `c6db` both identities are derived-inactive (no
logins ever), yet the reported `inactive_users` is 0 — it counts stored
`Status_ID = 2`, not derived inactivity, so no derived-inactive count is
computed; moreover the stored-status counts cover only status values 1, 2, 3,
so the user with stored status 4 (Pending) is counted by none of them and the
three counts do not add up to the total. -/
theorem c6_counterexample :
    (get_dashboard_stats c6db 0 "Admin").inactive_users
        ≠ derivedInactiveCount c6db 0 ∧
    derivedInactiveCount c6db 0 = 2 ∧
    (get_dashboard_stats c6db 0 "Admin").status_active_users
      + (get_dashboard_stats c6db 0 "Admin").inactive_users
      + (get_dashboard_stats c6db 0 "Admin").suspended_users
        ≠ (get_dashboard_stats c6db 0 "Admin").total_users := by
  decide

/-- C6 (amended): against one snapshot time the handler computes the total
identity count, the derived-active count (distinct identities with a login in
the trailing 90 days), stored-status counts for the three fixed status values
1, 2, 3 only (no derived-inactive count and no count for other stored status
values), role-based counts with staff = admins + super-admins + employees,
the trailing-7-day login-record count, and the summed balance over all
accounts exactly when the caller's role is Admin or Super_Admin (0
otherwise). -/
theorem c6_stats_amended (db : DB) (now : Int) (role : String) :
    (get_dashboard_stats db now role).total_users = db.users.length ∧
    (get_dashboard_stats db now role).active_users
      = (recentLoginUserIds db (now - ninetyDays)).dedup.length ∧
    (get_dashboard_stats db now role).status_active_users
      = (db.users.filter (fun u => decide (u.Status_ID = 1))).length ∧
    (get_dashboard_stats db now role).inactive_users
      = (db.users.filter (fun u => decide (u.Status_ID = 2))).length ∧
    (get_dashboard_stats db now role).suspended_users
      = (db.users.filter (fun u => decide (u.Status_ID = 3))).length ∧
    (get_dashboard_stats db now role).customers
      = (db.users.filter (fun u => decide (u.Role = "Customer"))).length ∧
    (get_dashboard_stats db now role).staff_members
      = (db.users.filter
          (fun u => decide (u.Role = "Admin" ∨ u.Role = "Super_Admin"))).length
        + (db.users.filter (fun u => decide (u.Role = "Employee"))).length ∧
    (get_dashboard_stats db now role).recent_logins
      = (db.login_history.filter
          (fun r => decide (now - sevenDays ≤ r.LoginTime))).length ∧
    ((role = "Admin" ∨ role = "Super_Admin") →
      (get_dashboard_stats db now role).total_balance
        = (db.accounts.map (fun a => a.Balance)).sum) ∧
    (¬ (role = "Admin" ∨ role = "Super_Admin") →
      (get_dashboard_stats db now role).total_balance = 0) := by
  refine ⟨rfl, rfl, ?_, ?_, ?_, ?_, ?_, ?_, ?_, ?_⟩
  · exact List.countP_eq_length_filter _ _
  · exact List.countP_eq_length_filter _ _
  · exact List.countP_eq_length_filter _ _
  · exact List.countP_eq_length_filter _ _
  · simp [get_dashboard_stats, List.countP_eq_length_filter]
  · exact List.countP_eq_length_filter _ _
  · intro h
    simp [get_dashboard_stats, if_pos h]
  · intro h
    simp [get_dashboard_stats, if_neg h]

/-- C6 witness: the amended statement instantiated at `c6db` with an Admin
caller, with the balance-gating hypotheses discharged. -/
theorem c6_witness :
    (get_dashboard_stats c6db 0 "Admin").total_users = c6db.users.length ∧
    (get_dashboard_stats c6db 0 "Admin").total_balance
      = (c6db.accounts.map (fun a => a.Balance)).sum ∧
    (get_dashboard_stats c6db 0 "Visitor").total_balance = 0 := by
  refine ⟨(c6_stats_amended c6db 0 "Admin").1, ?_, ?_⟩
  · exact (c6_stats_amended c6db 0 "Admin").2.2.2.2.2.2.2.2.1 (Or.inl rfl)
  · exact (c6_stats_amended c6db 0 "Visitor").2.2.2.2.2.2.2.2.2 (by decide)

/-! ## Monthly login report (`get_monthly_login_stats`, utils.py:1047-1091) -/

/-- Value of the `LastLogin` field of a report row.  The code puts either a
login-history `LoginTime`, or — when the user has no login records — the
user document's `LastLoggedIn` value via `user.get("LastLoggedIn",
"Never")`, whose default "Never" applies only when the field is absent. -/
inductive LastLoginVal
  | time (t : Int)
  | stored (v : Option Int)
  | never
deriving Repr, DecidableEq

/-- One row of the monthly report (utils.py:1068-1076). -/
structure UserStat where
  UserId : String
  Name : String
  Role : String
  LoginCount : Nat
  LastLogin : LastLoginVal
deriving Repr, DecidableEq

/-- Accumulator step realizing `find_one(..., sort=[("LoginTime", -1)])`:
the maximum login time seen so far. -/
def maxStep (acc : Option Int) (r : LoginRecord) : Option Int :=
  match acc with
  | none => some r.LoginTime
  | some t => some (max t r.LoginTime)

/-- The user's most recent login time over all months, `none` when the user
has no login records (utils.py:1059-1061). -/
def latestLoginTime (db : DB) (uid : String) : Option Int :=
  (db.login_history.filter (fun r => r.UserId == uid)).foldl maxStep none

/-- Embeds the per-user row construction of `get_monthly_login_stats`
(utils.py:1056-1076): count of this user's login records in the queried
month, and last login as described on `LastLoginVal`. -/
def userStatOf (db : DB) (currentMonth : String) (u : User) : UserStat :=
  { UserId := u.UserId,
    Name := u.First_Name ++ " " ++ u.Last_Name,
    Role := u.Role,
    LoginCount := db.login_history.countP
      (fun r => r.UserId == u.UserId && r.Month == currentMonth),
    LastLogin :=
      match latestLoginTime db u.UserId with
      | some t => .time t
      | none =>
        match u.LastLoggedIn with
        | some v => .stored v
        | none => .never }

/-- Ranking relation of the report: `a` ranks at or before `b` when `b`'s
login count does not exceed `a`'s. -/
def statGE (a b : UserStat) : Prop := b.LoginCount ≤ a.LoginCount

instance : DecidableRel statGE :=
  fun a b => inferInstanceAs (Decidable (b.LoginCount ≤ a.LoginCount))

instance : IsTotal UserStat statGE :=
  ⟨fun a b => le_total b.LoginCount a.LoginCount⟩

instance : IsTrans UserStat statGE :=
  ⟨fun _ _ _ hab hbc => le_trans hbc hab⟩

/-- The summary object returned by `get_monthly_login_stats`
(utils.py:1081-1087). -/
structure MonthlyStats where
  total_users : Nat
  total_logins : Nat
  active_users : Nat
  user_stats : List UserStat
deriving Repr, DecidableEq

/-- Embeds `get_monthly_login_stats` (utils.py:1047-1091): one row per stored
user, ranked by `login_stats.sort(key=lambda x: x["LoginCount"],
reverse=True)` — a stable descending sort, realized here by insertion sort
with the non-strict ranking relation (the unique stable sort for this key). -/
def get_monthly_login_stats (db : DB) (currentMonth : String) : MonthlyStats :=
  { total_users := db.users.length,
    total_logins :=
      ((db.users.map (userStatOf db currentMonth)).map
        (fun s => s.LoginCount)).sum,
    active_users :=
      ((List.insertionSort statGE (db.users.map (userStatOf db currentMonth))).filter
        (fun s => decide (0 < s.LoginCount))).length,
    user_stats :=
      List.insertionSort statGE (db.users.map (userStatOf db currentMonth)) }

/-- Concrete state for C7: one user created by `add_user` (so its
`LastLoggedIn` field is present and `None`) who has never logged in. -/
def c7db : DB :=
  { users := [⟨"U1", "F", "L", "Customer", 1, none, some none⟩],
    accounts := [], transactions := [], login_history := [],
    counter := none, statuses := [] }

/-- C7 counterexample: the never-logged-in user of `c7db` appears in the
monthly report with count 0 but with last-login equal to the stored `None`
value (JSON `null`), not the string "Never" — `user.get("LastLoggedIn",
"Never")` only defaults when the field is absent, and `add_user` always
stores it as `None`. -/
theorem c7_counterexample :
    (get_monthly_login_stats c7db "2026-10").user_stats.map
        (fun s => s.LastLogin) = [LastLoginVal.stored none] ∧
    (get_monthly_login_stats c7db "2026-10").user_stats.map
        (fun s => s.LoginCount) = [0] ∧
    LastLoginVal.stored none ≠ LastLoginVal.never := by
  decide

lemma filter_orderedInsert (c : Nat) (x : UserStat) (l : List UserStat) :
    (List.orderedInsert statGE x l).filter (fun s => decide (s.LoginCount = c))
      = if x.LoginCount = c then
          x :: l.filter (fun s => decide (s.LoginCount = c))
        else l.filter (fun s => decide (s.LoginCount = c)) := by
  induction l with
  | nil =>
    by_cases hc : x.LoginCount = c <;> simp [List.orderedInsert, hc]
  | cons y l ih =>
    simp only [List.orderedInsert]
    by_cases hr : statGE x y
    · rw [if_pos hr]
      by_cases hc : x.LoginCount = c <;>
        simp [List.filter_cons, hc]
    · rw [if_neg hr]
      have hxy : x.LoginCount < y.LoginCount := not_le.mp hr
      by_cases hc : x.LoginCount = c
      · have hyc : ¬ y.LoginCount = c := by omega
        simp [List.filter_cons, hyc, ih, hc]
      · by_cases hyc : y.LoginCount = c <;>
          simp [List.filter_cons, hyc, ih, hc]

lemma filter_insertionSort_count (c : Nat) (l : List UserStat) :
    (List.insertionSort statGE l).filter (fun s => decide (s.LoginCount = c))
      = l.filter (fun s => decide (s.LoginCount = c)) := by
  induction l with
  | nil => rfl
  | cons x l ih =>
    simp only [List.insertionSort]
    rw [filter_orderedInsert]
    by_cases hc : x.LoginCount = c
    · rw [if_pos hc, ih, List.filter_cons, if_pos (by simpa using hc)]
    · rw [if_neg hc, ih, List.filter_cons, if_neg (by simpa using hc)]

lemma foldl_maxStep_some (L : List LoginRecord) (x : Int) :
    ∃ t, L.foldl maxStep (some x) = some t ∧ x ≤ t ∧
      (t = x ∨ ∃ r ∈ L, r.LoginTime = t) ∧ ∀ r ∈ L, r.LoginTime ≤ t := by
  induction L generalizing x with
  | nil => exact ⟨x, rfl, le_refl x, Or.inl rfl, by simp⟩
  | cons r L ih =>
    obtain ⟨t, hfold, hle, hsrc, hbound⟩ := ih (max x r.LoginTime)
    refine ⟨t, hfold, le_trans (le_max_left _ _) hle, ?_, ?_⟩
    · rcases hsrc with h | ⟨q, hq, hqt⟩
      · rcases max_choice x r.LoginTime with hm | hm
        · exact Or.inl (h.trans hm)
        · exact Or.inr ⟨r, List.mem_cons_self r L, (h.trans hm).symm⟩
      · exact Or.inr ⟨q, List.mem_cons_of_mem r hq, hqt⟩
    · intro q hq
      rcases List.mem_cons.mp hq with rfl | hq
      · exact le_trans (le_max_right x q.LoginTime) hle
      · exact hbound q hq

lemma foldl_maxStep_spec (L : List LoginRecord) (t : Int)
    (h : L.foldl maxStep none = some t) :
    (∃ r ∈ L, r.LoginTime = t) ∧ ∀ r ∈ L, r.LoginTime ≤ t := by
  cases L with
  | nil => simp at h
  | cons r L =>
    rw [List.foldl_cons, show maxStep none r = some r.LoginTime from rfl] at h
    obtain ⟨t2, hfold, hle, hsrc, hbound⟩ := foldl_maxStep_some L r.LoginTime
    rw [hfold] at h
    obtain rfl : t2 = t := Option.some.inj h
    refine ⟨?_, ?_⟩
    · rcases hsrc with h1 | ⟨q, hq, hqt⟩
      · exact ⟨r, List.mem_cons_self r L, h1.symm⟩
      · exact ⟨q, List.mem_cons_of_mem r hq, hqt⟩
    · intro q hq
      rcases List.mem_cons.mp hq with rfl | hq
      · exact hle
      · exact hbound q hq

lemma latestLoginTime_spec (db : DB) (uid : String) (t : Int)
    (h : latestLoginTime db uid = some t) :
    (∃ r ∈ db.login_history, r.UserId = uid ∧ r.LoginTime = t) ∧
    ∀ r ∈ db.login_history, r.UserId = uid → r.LoginTime ≤ t := by
  obtain ⟨⟨r, hr, hrt⟩, hbound⟩ := foldl_maxStep_spec _ t h
  have hmem := List.mem_filter.mp hr
  refine ⟨⟨r, hmem.1, by simpa using hmem.2, hrt⟩, ?_⟩
  intro q hq hquid
  exact hbound q (List.mem_filter.mpr ⟨hq, by simpa using hquid⟩)

lemma latestLoginTime_eq_none (db : DB) (uid : String)
    (h : ∀ r ∈ db.login_history, r.UserId ≠ uid) :
    latestLoginTime db uid = none := by
  unfold latestLoginTime
  have hnil : db.login_history.filter (fun r => r.UserId == uid) = [] := by
    rw [List.filter_eq_nil_iff]
    intro r hr
    simpa using h r hr
  rw [hnil]
  rfl

lemma userStat_LoginCount_eq (db : DB) (m : String) (u : User) :
    (userStatOf db m u).LoginCount
      = (db.login_history.filter
          (fun r => decide (r.UserId = u.UserId ∧ r.Month = m))).length := by
  have hpred : (fun r : LoginRecord => r.UserId == u.UserId && r.Month == m)
      = (fun r : LoginRecord => decide (r.UserId = u.UserId ∧ r.Month = m)) := by
    funext r
    by_cases h1 : r.UserId = u.UserId <;> by_cases h2 : r.Month = m <;>
      simp [h1, h2]
  show db.login_history.countP
      (fun r => r.UserId == u.UserId && r.Month == m) = _
  rw [hpred, List.countP_eq_length_filter]

/-- C7 (amended): the monthly report contains one row for every stored
identity; each row's login count is the number of that identity's login
records whose `Month` is the queried month, so an identity with no login
records in the queried month — even one with logins in prior months — has
count 0; a row for an identity with no login records at all has count 0 and
last-login equal to the identity's stored `LastLoggedIn` value when that
field is present (`None` for identities created by `add_user`) and "Never"
only when the field is absent; a row for an identity with login records
carries its most recent login time over all months (which, when the identity
has no logins in the queried month, is its most recent prior-month login);
rows are ordered by non-increasing login count, and rows of equal count keep
the stable original (user-store) order. -/
theorem c7_monthly_report_amended (db : DB) (m : String) :
    (get_monthly_login_stats db m).user_stats.length = db.users.length ∧
    (∀ u ∈ db.users,
      userStatOf db m u ∈ (get_monthly_login_stats db m).user_stats) ∧
    (∀ u ∈ db.users, (∀ r ∈ db.login_history, r.UserId ≠ u.UserId) →
      (userStatOf db m u).LoginCount = 0 ∧
      (userStatOf db m u).LastLogin
        = (match u.LastLoggedIn with
           | some v => LastLoginVal.stored v
           | none => LastLoginVal.never)) ∧
    (∀ u ∈ db.users, ∀ t, latestLoginTime db u.UserId = some t →
      (userStatOf db m u).LastLogin = LastLoginVal.time t ∧
      (∃ r ∈ db.login_history, r.UserId = u.UserId ∧ r.LoginTime = t) ∧
      (∀ r ∈ db.login_history, r.UserId = u.UserId → r.LoginTime ≤ t)) ∧
    List.Sorted statGE (get_monthly_login_stats db m).user_stats ∧
    (∀ c : Nat,
      (get_monthly_login_stats db m).user_stats.filter
          (fun s => decide (s.LoginCount = c))
        = (db.users.map (userStatOf db m)).filter
            (fun s => decide (s.LoginCount = c))) ∧
    (∀ u ∈ db.users,
      (userStatOf db m u).LoginCount
        = (db.login_history.filter
            (fun r => decide (r.UserId = u.UserId ∧ r.Month = m))).length) ∧
    (∀ u ∈ db.users,
      (∀ r ∈ db.login_history, r.UserId = u.UserId → r.Month ≠ m) →
      (userStatOf db m u).LoginCount = 0) := by
  refine ⟨?_, ?_, ?_, ?_, ?_, ?_, ?_, ?_⟩
  · exact (List.perm_insertionSort statGE _).length_eq.trans
      (List.length_map _ _)
  · intro u hu
    exact ((List.perm_insertionSort statGE _).mem_iff).mpr
      (List.mem_map_of_mem _ hu)
  · intro u _ hnone
    constructor
    · simp only [userStatOf]
      rw [List.countP_eq_zero]
      intro r hr
      simp [hnone r hr]
    · simp only [userStatOf, latestLoginTime_eq_none db u.UserId
        (fun r hr => hnone r hr)]
  · intro u _ t ht
    obtain ⟨hex, hbound⟩ := latestLoginTime_spec db u.UserId t ht
    exact ⟨by simp only [userStatOf, ht], hex, hbound⟩
  · exact List.sorted_insertionSort statGE _
  · intro c
    exact filter_insertionSort_count c _
  · intro u _
    exact userStat_LoginCount_eq db m u
  · intro u _ hm
    show db.login_history.countP
        (fun r => r.UserId == u.UserId && r.Month == m) = 0
    rw [List.countP_eq_zero]
    intro r hr
    by_cases h1 : r.UserId = u.UserId
    · simp [h1, hm r hr h1]
    · simp [h1]

/-- Users for the C7 witness. -/
def c7u1 : User := ⟨"U1", "F", "L", "Customer", 1, none, some none⟩

/-- A second witness user whose record lacks the `LastLoggedIn` field. -/
def c7u2 : User := ⟨"U2", "G", "M", "Customer", 1, none, none⟩

/-- Concrete state for the C7 witness: U1 logged in once in a prior month,
U2 never logged in and has no `LastLoggedIn` field. -/
def c7wdb : DB :=
  { users := [c7u1, c7u2], accounts := [], transactions := [],
    login_history := [⟨"U1", 500, "2026-09"⟩], counter := none,
    statuses := [] }

/-- C7 witness: in the October report U1, whose only login is in September,
still has login count 0 for October (the count is month-scoped) while
carrying its prior-month login time 500; U2 (never logged in, field absent)
shows "Never"; the report has one row per user. -/
theorem c7_witness :
    (get_monthly_login_stats c7wdb "2026-10").user_stats.length
      = c7wdb.users.length ∧
    ((userStatOf c7wdb "2026-10" c7u2).LoginCount = 0 ∧
      (userStatOf c7wdb "2026-10" c7u2).LastLogin = LastLoginVal.never) ∧
    (userStatOf c7wdb "2026-10" c7u1).LastLogin = LastLoginVal.time 500 ∧
    (userStatOf c7wdb "2026-10" c7u1).LoginCount = 0 ∧
    (userStatOf c7wdb "2026-10" c7u1).LoginCount
      = (c7wdb.login_history.filter
          (fun r => decide (r.UserId = c7u1.UserId ∧ r.Month = "2026-10"))).length := by
  have h := c7_monthly_report_amended c7wdb "2026-10"
  refine ⟨h.1, ?_, ?_, ?_, ?_⟩
  · exact h.2.2.1 c7u2 (by decide) (by decide)
  · exact (h.2.2.2.1 c7u1 (by decide) 500 (by decide)).1
  · exact h.2.2.2.2.2.2.2 c7u1 (by decide) (by decide)
  · exact h.2.2.2.2.2.2.1 c7u1 (by decide)

/-! ## Branch derivation at account creation (app.py:120-133,
utils.py:1141-1155) -/

/-- Splitting a character list into maximal whitespace-free words:
embeds Python `str.split()` with no arguments. -/
def splitWordsAux : List Char → List Char → List (List Char)
  | [], acc => if acc.isEmpty then [] else [acc.reverse]
  | c :: cs, acc =>
    if c.isWhitespace then
      if acc.isEmpty then splitWordsAux cs []
      else acc.reverse :: splitWordsAux cs []
    else splitWordsAux cs (c :: acc)

/-- Python `str.split()` on a string. -/
def pySplit (s : String) : List String :=
  (splitWordsAux s.data []).map (fun w => String.mk w)

/-- Python `str.strip()`: drop leading and trailing whitespace. -/
def pyStrip (s : String) : String :=
  String.mk
    (((s.data.dropWhile Char.isWhitespace).reverse.dropWhile
        Char.isWhitespace).reverse)

/-- Embeds the branch derivation of `add_user` (app.py:121-125) and
`create_accounts_for_customers` (utils.py:1147-1151):
`user_data.get("Address", "Unknown").strip().split()[0] if
user_data.get("Address") else "Unknown"`.  A missing or falsy (empty)
address yields "Unknown"; otherwise the first token of strip+split; `none`
models the `IndexError` that `[0]` raises when the split yields no tokens,
which aborts account creation. -/
def deriveBranch (address : Option String) : Option String :=
  match address with
  | none => some "Unknown"
  | some a =>
    if a = "" then some "Unknown"
    else
      match pySplit (pyStrip a) with
      | [] => none
      | t :: _ => some t

/-- C8: branch derivation crashes on a whitespace-only address.  A missing
address and an empty address yield the sentinel "Unknown" and a normal
address yields its first whitespace-delimited token, but the single-space
address " " is truthy in Python, survives the guard, and `.strip().split()`
returns an empty list whose `[0]` raises `IndexError` — account creation
fails instead of producing a branch value. -/
theorem c8_whitespace_address_crash :
    deriveBranch (some " ") = none ∧
    deriveBranch none = some "Unknown" ∧
    deriveBranch (some "") = some "Unknown" ∧
    deriveBranch (some "  Mumbai Central Road ") = some "Mumbai" := by
  decide

end Banking
